import Mathlib

/-!
# Rendering model of the essay site

A shallow embedding of the two presentational components
(`components/title.js`, `components/back.js`) and of the essay page
`pages/2017/multithreading-node.js`.

A component is a function from its props object to the element tree that its
JSX body denotes.  JavaScript values are restricted to the primitives that can
reach these components as props; the operators `?:`, `&&`, `||` and template
interpolation follow the language's truthiness and string conversion.
-/

set_option autoImplicit false

namespace PortLeo

/-! ## JavaScript values -/

/-- Primitive JavaScript values.  `num` stands for the integer-valued numbers
whose string form is their plain decimal expansion; `nan` is `NaN`. -/
inductive JSVal where
  | undefined
  | null
  | bool (b : Bool)
  | num (n : Int)
  | nan
  | str (s : String)
  deriving DecidableEq, Repr

namespace JSVal

/-- ToBoolean: `undefined`, `null`, `false`, `0`, `NaN` and `''` are falsy. -/
def truthy : JSVal → Bool
  | undefined => false
  | null => false
  | bool b => b
  | num n => n != 0
  | nan => false
  | str s => s != ""

/-- ToString, as applied to an interpolated value of a template literal. -/
def toStr : JSVal → String
  | undefined => "undefined"
  | null => "null"
  | bool true => "true"
  | bool false => "false"
  | num n => toString n
  | nan => "NaN"
  | str s => s

/-- The operator `a && b`: `a` when `a` is falsy, else `b`. -/
def and (a b : JSVal) : JSVal := if a.truthy then b else a

/-- The operator `a || b`: `a` when `a` is truthy, else `b`. -/
def or (a b : JSVal) : JSVal := if a.truthy then a else b

end JSVal

/-! ## Props and element trees -/

/-- A props object: its own properties in order, the first binding of a key
giving the property. -/
abbrev Props := List (String × JSVal)

/-- Property access `props.k`; a missing property reads as `undefined`. -/
def Props.get (p : Props) (k : String) : JSVal := (p.lookup k).getD .undefined

/-- What a JSX expression denotes: a child that is a JavaScript value (JSX text
and `{...}` containers) or an element with its tag, props and children. -/
inductive Node where
  | val (v : JSVal)
  | elem (tag : String) (props : Props) (children : List Node)
  deriving Repr

namespace Node

/-- The tag of an element. -/
def tag? : Node → Option String
  | val _ => none
  | elem t _ _ => some t

/-- Whether the node is an element with the given tag. -/
def hasTag (t : String) (n : Node) : Bool := n.tag? == some t

/-- The children of an element. -/
def children : Node → List Node
  | val _ => []
  | elem _ _ cs => cs

/-- The prop `k` as written on an element, `none` when it is not written. -/
def prop? (k : String) : Node → Option JSVal
  | val _ => none
  | elem _ ps _ => ps.lookup k

/-- The first child element with the given tag. -/
def childElem? (t : String) (n : Node) : Option Node := n.children.find? (hasTag t)

mutual
/-- Every element of the tree, the node itself included, in document order. -/
def descendants : Node → List Node
  | val _ => []
  | elem t ps cs => elem t ps cs :: descendantsList cs
/-- The elements of a sequence of trees, in document order. -/
def descendantsList : List Node → List Node
  | [] => []
  | n :: ns => descendants n ++ descendantsList ns
end

end Node

/-! ## components/title.js -/

/-- The module constant `suffix`. -/
def suffix : String := "Leo Lamprecht"

/-- The default export of `components/title.js`:
`({ value }) => <Head><title>{value ? T : suffix}</title></Head>`, where `T` is
the template literal interpolating `value`, then the text `" — "`, then `suffix`. -/
def Title (props : Props) : Node :=
  let value := props.get "value"
  .elem "Head" [] [
    .elem "title" [] [
      .val (if value.truthy then .str (value.toStr ++ " — " ++ suffix) else .str suffix)]]

/-! ## components/back.js -/

/-- The style sheet of the `<style jsx>` element of `components/back.js`. -/
def backStyle : String :=
  "\n      div \x7b\n        position: absolute;\n        right: 30px;\n        top: 40px;\n        height: 37px;\n        width: 37px;\n      \x7d\n\n      a \x7b\n        font-size: 19px;\n        text-align: center;\n        background: #efefef;\n        font-weight: bold;\n        box-sizing: border-box;\n        color: #000;\n        height: inherit;\n        display: block;\n        width: inherit;\n        line-height: 44px;\n        border-radius: 100%;\n        font-family: 'Courier New', serif;\n        text-decoration: none;\n      \x7d\n\n      .closer \x7b\n        right: 15px;\n        top: 15px;\n      \x7d\n\n      .closer a \x7b\n        background: #fff;\n      \x7d\n\n      @media (min-width: 600px) \x7b\n        .closer \x7b\n          right: 30px;\n          top: 40px;\n        \x7d\n\n        .closer a \x7b\n          background: #efefef;\n        \x7d\n      \x7d\n\n      @media (min-width: 768px) \x7b\n        div \x7b\n          width: 55px;\n          height: 55px;\n        \x7d\n\n        a \x7b\n          transition: all .2s;\n          font-size: 22px;\n          line-height: 66px;\n        \x7d\n\n        .closer a:hover,\n        a:hover \x7b\n          background: #e3e3e3;\n          transform: scale(1.1);\n        \x7d\n      \x7d\n    "

/-- The default export of `components/back.js`:
a `div` with `className={closer && 'closer'}` holding a prefetching `Link` with
`href={to || '/'}` around an anchor, followed by the scoped style sheet. -/
def Back (props : Props) : Node :=
  let to_ := props.get "to"
  let closer := props.get "closer"
  .elem "div" [("className", closer.and (.str "closer"))] [
    .elem "Link" [("href", to_.or (.str "/")), ("prefetch", .bool true)] [
      .elem "a" [] [.val (.str "\u21a9\ufe0e")]],
    .elem "style" [("jsx", .bool true)] [.val (.str backStyle)]]

/-! ## pages/2017/multithreading-node.js -/

/-- The element tree returned by the default export of
`pages/2017/multithreading-node.js`.  JSX text is given after JSX whitespace
handling (lines trimmed and joined by one space); string and template literals
in `{...}` containers are children of their own. -/
def multithreadingNode : Node :=
  .elem "Post" [] [
    .elem "Meta" [("id", .str "multithreading-node")] [],
    .elem "P" [] [
      .val (.str "When I wrote the initial version of "),
      .elem "Link" [("href", .str "https://github.com/zeit/serve")] [
        .val (.str "serve")],
      .val (.str " (called "),
      .val (.str "\""),
      .val (.str "micro-list"),
      .val (.str "\""),
      .val (.str " back then) somewhere in the middle of 2016, I was doing a lot of sychronous operations although we already had a transpilation setup for "),
      .elem "InlineCode" [] [
        .val (.str "async")],
      .val (.str " and "),
      .elem "InlineCode" [] [
        .val (.str "await")],
      .val (.str " in place.")],
    .elem "P" [] [
      .val (.str "Then, a few days later when it was time to publish the package, "),
      .elem "Link" [("href", .str "https://twitter.com/rauchg")] [
        .val (.str "rauchg")],
      .val (.str " wrote me on Slack saying that I should write more asynchronous code because I would otherwise be making "),
      .val (.str "\""),
      .val (.str "the concurrency of the process plummet"),
      .val (.str "\""),
      .val (.str ".")],
    .elem "P" [] [
      .val (.str "Back then, I simply did what he told me and immediately noticed a slight performance boost. From there on, I never used any native synchronous functions (or packages) again and went completely asynchronous.")],
    .elem "P" [] [
      .val (.str "However, I didn"),
      .val (.str "'"),
      .val (.str "t manage to ask him why it"),
      .val (.str "'"),
      .val (.str "s like that. We were shipping a lot of stuff at that time and I simply forgot about it.")],
    .elem "P" [] [
      .val (.str "Now, nearly a year later, I came across this topic again because native support for both keywords "),
      .elem "Link" [("href", .str "https://twitter.com/notquiteleo/status/834330621107433472")] [
        .val (.str "has landed")],
      .val (.str " and I spent a lot of time thinking about how we could take advantage of that at "),
      .elem "Link" [("href", .str "https://zeit.co")] [
        .val (.str "ZEIT")],
      .val (.str ". So I collected my thoughts and we had a detailed discussion about why everyone should "),
      .elem "InlineCode" [] [
        .val (.str "await")],
      .val (.str " asynchronous functions, rather than using sychronous ones (like "),
      .elem "InlineCode" [] [
        .val (.str "fs.statSync")],
      .val (.str ").")],
    .elem "P" [] [
      .val (.str "The reason why I"),
      .val (.str "'"),
      .val (.str "m writing this post is because this newly aquired skill seems very valuable to me, since it brings me closer to understanding the backbone of Node.js and allows me to improve the performance of my code drastically.")],
    .elem "P" [] [
      .val (.str "In turn, I thought making my learning progress public could help others - who"),
      .val (.str "'"),
      .val (.str "re in the same position - to take advantage of this knowledge as well.")],
    .elem "H2" [] [
      .val (.str "Node.js Code Is Run Concurrently, Not in Parallel")],
    .elem "P" [] [
      .val (.str "When I first heard about this statement, I got a little confused. Intially, I thought both words would mean the same.")],
    .elem "P" [] [
      .val (.str "In the context of computing processes, however, I learned that this assumption is not always true:")],
    .elem "P" [] [
      .val (.str "While "),
      .elem "b" [] [
        .val (.str "parallel")],
      .val (.str " operations are both started at the same time and literally run simultaneously (which is only possible with multi-core CPUs), "),
      .elem "b" [] [
        .val (.str "concurrent")],
      .val (.str " ones might both make process regardless of the other, but cannot run at the same time (suitable for single-core CPUs)."),
      .elem "Ref" [("id", .str "1")] []],
    .elem "P" [] [
      .val (.str "Let me clarify that with an example:")],
    .elem "Code" [] [
      .val (.str "setInterval(() => \x7b\n  console.log('Interval dispatched')\n\x7d, 1000)\n\nloadDataSync()\nconsole.log('Data downloaded')")],
    .elem "P" [] [
      .val (.str "As you can see, I"),
      .val (.str "'"),
      .val (.str "m handling two tasks: The first three lines introduce an interval that gets executed every 1000 milliseconds (one second) and the last line calls an arbitrary function which is doing something in a synchronous way.")],
    .elem "P" [] [
      .val (.str "Now the interesting part:")],
    .elem "P" [] [
      .val (.str "Although the code for starting the interval gets executed "),
      .elem "b" [] [
        .val (.str "before")],
      .val (.str " the synchronous function gets called, the callback inside "),
      .elem "InlineCode" [] [
        .val (.str "setInterval()")],
      .val (.str " won"),
      .val (.str "'"),
      .val (.str "t be run before"),
      .val (.str " "),
      .elem "InlineCode" [] [
        .val (.str "loadDataSync()")],
      .val (.str " has returned something.")],
    .elem "P" [] [
      .val (.str "This is because of Node.js"),
      .val (.str "'"),
      .val (.str " concurrent nature. Its backbone consists of a single-threaded event loop and therefore doesn"),
      .val (.str "'"),
      .val (.str "t allow for operations running in parallel out of the box.")],
    .elem "P" [] [
      .val (.str "Or as Panu from "),
      .elem "Link" [("href", .str "https://bytearcher.com")] [
        .val (.str "Byte Archer")],
      .val (.str " puts it:")],
    .elem "Quote" [] [
      .val (.str "The event-loop repeatedly takes an event and fires any event handlers listening to that event one at a time. No JavaScript code is ever executed in parallel."),
      .elem "br" [] [],
      .elem "br" [] [],
      .val (.str "As long as the event handlers are small and frequently wait for yet more events themselves, all computations (for example fulfilling and serving a HTTP request) can be thought as advancing one small step at a time - concurrently. This is beneficial in web applications where the majority of the time is spent waiting for I/O to complete. It allows single Node.js process to handle huge amounts of requests.")],
    .elem "P" [] [
      .val (.str "So technically, nothing can guarantee you that intervals in Node.js will always get executed on the exact times you"),
      .val (.str "'"),
      .val (.str "ve defined. Instead, the execution of the callback will be enqueued on a certain point in time, but will only start once the thread isn"),
      .val (.str "'"),
      .val (.str "t handling any other operation.")],
    .elem "P" [] [
      .val (.str "As an example, the "),
      .elem "InlineCode" [] [
        .val (.str "loadDataSync()")],
      .val (.str " function call shown in the code snippet above might take - let"),
      .val (.str "'"),
      .val (.str "s say - "),
      .elem "b" [] [
        .val (.str "five seconds")],
      .val (.str " to download some data. This would mean that the callback of "),
      .elem "InlineCode" [] [
        .val (.str "setInterval()")],
      .val (.str " will get enqueued after "),
      .elem "b" [] [
        .val (.str "1000 milliseconds (1 second)")],
      .val (.str ", but not actually executed until five seconds have passed.")],
    .elem "P" [] [
      .val (.str "Because one second (1000 ms) fits into five seconds "),
      .elem "b" [] [
        .val (.str "five times")],
      .val (.str " (wow, we"),
      .val (.str "'"),
      .val (.str "re doing some really heavy stuff here), in our example, the callback execution would therefore get enqueued "),
      .elem "b" [] [
        .val (.str "five times")],
      .val (.str ". In turn, you"),
      .val (.str "'"),
      .val (.str "ll get the message logged to the console "),
      .elem "b" [] [
        .val (.str "five times")],
      .val (.str " "),
      .val (.str "immediately after "),
      .val (.str "\""),
      .val (.str "the data was downloaded"),
      .val (.str "\""),
      .val (.str ":")],
    .elem "Image" [("src", .str "/static/essays/2017/multithreading-node/blocking.gif"), ("width", .str "380"), ("isWindow", .bool true)] [],
    .elem "H2" [] [
      .val (.str "Quick! "),
      .elem "InlineCode" [] [
        .val (.str "await")],
      .val (.str " To the Rescue!")],
    .elem "P" [] [
      .val (.str "To solve this problem, we need to make the operation for pulling the data non-blocking. At the moment, it"),
      .val (.str "'"),
      .val (.str "s still synchronous and therefore making the process"),
      .val (.str "'"),
      .val (.str " performance plummet.")],
    .elem "P" [] [
      .val (.str "Here"),
      .val (.str "'"),
      .val (.str "s how it looks with "),
      .elem "InlineCode" [] [
        .val (.str "await")],
      .val (.str ":")],
    .elem "Code" [] [
      .val (.str "setInterval(() => \x7b\n  console.log('Interval dispatched')\n\x7d, 1000)\n\nawait loadData()\nconsole.log('Data downloaded')")],
    .elem "P" [] [
      .val (.str "To make this work, you would also have to rewrite your sychronous function into an asynchronous one (either a "),
      .elem "InlineCode" [] [
        .val (.str "Promise")],
      .val (.str " or a function prefixed with "),
      .elem "InlineCode" [] [
        .val (.str "async")],
      .val (.str ").")],
    .elem "P" [] [
      .val (.str "To make my point clear, I came up with a snippet that simulates the case of "),
      .elem "InlineCode" [] [
        .val (.str "loadData()")],
      .val (.str " taking 5000 milliseconds to finish:")],
    .elem "Code" [] [
      .val (.str "const loadData = () => new Promise(resolve => \x7b\n  setTimeout(resolve, 5000)\n\x7d)")],
    .elem "P" [] [
      .val (.str "Now the data is being downloaded "),
      .elem "b" [] [
        .val (.str "while")],
      .val (.str " the interval"),
      .val (.str "'"),
      .val (.str "s callback gets executed every 1000 milliseconds. The operation can be called "),
      .val (.str "\""),
      .val (.str "non-blocking"),
      .val (.str "\""),
      .val (.str " now. In turn, we got the maximum of performance out of our script:")],
    .elem "Image" [("src", .str "/static/essays/2017/multithreading-node/non-blocking.gif"), ("width", .str "380"), ("isWindow", .bool true)] [],
    .elem "P" [] [
      .val (.str "As you can see, even though the function is now acting asynchronously, the interval output never shows up after exact 1000 milliseconds. It"),
      .val (.str "'"),
      .val (.str "s always a slightly different number.")],
    .elem "P" [] [
      .val (.str "That"),
      .val (.str "'"),
      .val (.str "s because the callback WILL get triggered after that time, but Node.js takes some time to actually execute the code inside it. This, however, is as close as we can get to raw performance using "),
      .elem "InlineCode" [] [
        .val (.str "async")],
      .val (.str " and "),
      .elem "InlineCode" [] [
        .val (.str "await")],
      .val (.str ".")],
    .elem "H2" [] [
      .val (.str "Making Our Way into the Light")],
    .elem "P" [] [
      .val (.str "However, speeding up our code to the maximum isn"),
      .val (.str "'"),
      .val (.str "t quite so easy. Although we"),
      .val (.str "'"),
      .val (.str "ve fixed the problem of blocking the code by using asynchronous operations (a.k.a. "),
      .val (.str "\""),
      .val (.str "unblocking it"),
      .val (.str "\""),
      .val (.str "), part of it is still run concurrently.")],
    .elem "P" [] [
      .val (.str "To understand this, we need to dive a little deeper:")],
    .elem "P" [] [
      .val (.str "In our example, we're handling two operations: Dispatching an interval every 1000 milliseconds and downloading data.")],
    .elem "P" [] [
      .val (.str "But since Node.js only comes "),
      .elem "b" [] [
        .val (.str "with a single thread out of the box")],
      .val (.str " (like mentioned before), there's just one operation that can be handled at the same time. In turn, it's not possible to run both of these actions completely "),
      .elem "b" [] [
        .val (.str "in parallel")],
      .val (.str " without extending Node.js' default behavior.")],
    .elem "P" [] [
      .val (.str "Now the tricky part:")],
    .elem "P" [] [
      .val (.str "The code I've shown you above introduces a function call of "),
      .elem "InlineCode" [] [
        .val (.str "loadData()")],
      .val (.str " preceded by the "),
      .elem "InlineCode" [] [
        .val (.str "await")],
      .val (.str " keyword. As indicated by the name, it could be used for loading some data from a certain origin (like the web).")],
    .elem "P" [] [
      .val (.str "This means that we're dealing with a special kind of operation. Why? Because it won't be fully executed inside that single thread we've talked about.")],
    .elem "P" [] [
      .val (.str "Instead, actions like fetching raw data and such are processed directly by the kernel (which can be thought of as a separate \"thread\" or \"process\" - independent from the thread the interval is running in).")],
    .elem "P" [] [
      .val (.str "Only the remaining \"sub operations\" required for loading the data (like processing the JSON response, which is mostly blocking) will be left to Node.js and are therefore run in that single-threaded event loop.")],
    .elem "P" [] [
      .val (.str "In turn, part of our code is still running concurrently. Both the processing of the response received from the kernel and the interval are sharing the same thread and are therefore not able to run "),
      .elem "b" [] [
        .val (.str "truly in parallel")],
      .val (.str ". Instead, they're basically only "),
      .elem "b" [] [
        .val (.str "swapping turns")],
      .val (.str " (that"),
      .val (.str "'"),
      .val (.str "s the essence of the term "),
      .val (.str "\""),
      .val (.str "concurrency"),
      .val (.str "\""),
      .val (.str ")")],
    .elem "HR" [] [],
    .elem "P" [] [
      .val (.str "Big 🤗 to "),
      .elem "Link" [("href", .str "https://twitter.com/OVanhoja")] [
        .val (.str "Olli")],
      .val (.str " and "),
      .elem "Link" [("href", .str "https://twitter.com/rauchg")] [
        .val (.str "Guillermo")],
      .val (.str " for taking the time to clear up the confusion I had in my mind about this topic.")],
    .elem "P" [] [
      .val (.str "I'm truly happy to have such amazing mentors!")],
    .elem "FootNotes" [] [
      .elem "Note" [("id", .str "1")] [
        .val (.str "If you want to deeply understand the difference between concurrency and parallelism and why Node.js only comes with the former way of processing code, I highly recommend reading "),
        .elem "Link" [("href", .str "https://bytearcher.com/articles/parallel-vs-concurrent/")] [
          .val (.str "this")],
        .val (.str ".")]]]

/-- The blocks of a page: the children of its layout element. -/
def blocks (page : Node) : List Node := page.children

/-- The `id` props of all `Ref` elements of a block sequence, nested ones included. -/
def refIds (bs : List Node) : List JSVal :=
  ((Node.descendantsList bs).filter (Node.hasTag "Ref")).map
    fun n => (n.prop? "id").getD .undefined

/-- The `FootNotes` elements among the blocks. -/
def footNotesBlocks (bs : List Node) : List Node := bs.filter (Node.hasTag "FootNotes")

/-- The `id` props of the `Note` children of the `FootNotes` blocks. -/
def noteIds (bs : List Node) : List JSVal :=
  ((footNotesBlocks bs).flatMap fun l => l.children.filter (Node.hasTag "Note")).map
    fun n => (n.prop? "id").getD .undefined

/-- The `Code` elements of a block sequence, nested ones included. -/
def codeBlocks (bs : List Node) : List Node :=
  (Node.descendantsList bs).filter (Node.hasTag "Code")

/-- The children of the `title` element of a rendered `Title`. -/
def titleChildren (n : Node) : Option (List Node) :=
  (n.childElem? "title").map Node.children

/-- The `Link` element of a rendered `Back`. -/
def backLink (n : Node) : Option Node := n.childElem? "Link"

/-- The `href` prop of the `Link` of a rendered `Back`. -/
def backHref (n : Node) : Option JSVal := (backLink n).bind (Node.prop? "href")

/-- The `prefetch` prop of the `Link` of a rendered `Back`. -/
def backPrefetch (n : Node) : Option JSVal := (backLink n).bind (Node.prop? "prefetch")

/-- The `className` prop of the wrapper `div` of a rendered `Back`. -/
def backClassName (n : Node) : Option JSVal := n.prop? "className"

/-! ## Composition of a document -/

/-- The ways in which composing a document fails. -/
inductive RenderError where
  | multipleFootNoteLists
  | duplicateNote (id : JSVal)
  | danglingReference (id : JSVal)
  deriving DecidableEq, Repr

/-- A document: its identifier, its optional title (`undefined` when it has
none) and its blocks in source order. -/
structure Document where
  id : String
  title : JSVal
  blocks : List Node

/-- The first element of a list that occurs again later in it. -/
def firstDuplicate : List JSVal → Option JSVal
  | [] => none
  | x :: xs => if x ∈ xs then some x else firstDuplicate xs

/-- Modelled from the spec: the footnote components (`components/footnotes`:
`Ref`, `FootNotes`, `Note`) and the essay layout that composes a page are not
among the sources.  Following sections 4.2, 7 and 9 of the specification: a
document declares at most one footnote list, note identifiers are unique, and
the identifiers of the notes are collected first and every reference is
validated against them before anything is rendered. -/
def resolveFootNotes (bs : List Node) : Except RenderError Unit :=
  if 1 < (footNotesBlocks bs).length then .error .multipleFootNoteLists
  else match firstDuplicate (noteIds bs) with
    | some i => .error (.duplicateNote i)
    | none =>
      match (refIds bs).find? (fun r => !(noteIds bs).contains r) with
      | some r => .error (.danglingReference r)
      | none => .ok ()

/-- Modelled from the spec: the document composer of section 4.2, absent from
the sources.  It fails on a violated footnote invariant and produces nothing;
otherwise the output is the page shell (the title, falling back to the site
default, and the back affordance, defaulting to the site root) wrapping the
blocks in source order. -/
def renderDocument (d : Document) : Except RenderError Node :=
  match resolveFootNotes d.blocks with
  | .error e => .error e
  | .ok () => .ok (.elem "PageShell" [] (Title [("value", d.title)] :: Back [] :: d.blocks))

/-! ## Renders as steps on the surrounding state -/

/-- The variables a component body can reach besides its parameter: the
bindings of its module and of the global scope, by name. -/
abbrev Scope := List (String × JSVal)

/-- Reading the variable `x`; an unbound name reads as `undefined`. -/
def Scope.get (σ : Scope) (x : String) : JSVal := (σ.lookup x).getD .undefined

/-- The module scope of `components/title.js` once loaded:
`const suffix = 'Leo Lamprecht'`. -/
def titleScope : Scope := [("suffix", .str suffix)]

/-- One render of the default export of `components/title.js` in a scope: the
element tree and the scope the render leaves behind.  The body reads its
parameter `value` and the variable `suffix`, and assigns to no variable. -/
def renderTitle (σ : Scope) (props : Props) : Node × Scope :=
  let value := props.get "value"
  let suffix := σ.get "suffix"
  (.elem "Head" [] [
    .elem "title" [] [
      .val (if value.truthy then .str (value.toStr ++ " — " ++ suffix.toStr) else suffix)]],
   σ)

/-- One render of the default export of `components/back.js` in a scope: the
body reads its parameters `to` and `closer` only, and assigns to no variable. -/
def renderBack (σ : Scope) (props : Props) : Node × Scope :=
  let to_ := props.get "to"
  let closer := props.get "closer"
  (.elem "div" [("className", closer.and (.str "closer"))] [
    .elem "Link" [("href", to_.or (.str "/")), ("prefetch", .bool true)] [
      .elem "a" [] [.val (.str "\u21a9\ufe0e")]],
    .elem "style" [("jsx", .bool true)] [.val (.str backStyle)]],
   σ)

/-! ## Lemmas on the operators -/

theorem JSVal.truthy_str (s : String) : (JSVal.str s).truthy = true ↔ s ≠ "" := by
  simp [JSVal.truthy]

theorem JSVal.and_of_truthy {a : JSVal} (b : JSVal) (h : a.truthy = true) : a.and b = b := by
  simp [JSVal.and, h]

theorem JSVal.and_of_falsy {a : JSVal} (b : JSVal) (h : a.truthy = false) : a.and b = a := by
  simp [JSVal.and, h]

theorem JSVal.or_of_truthy {a : JSVal} (b : JSVal) (h : a.truthy = true) : a.or b = a := by
  simp [JSVal.or, h]

theorem JSVal.or_of_falsy {a : JSVal} (b : JSVal) (h : a.truthy = false) : a.or b = b := by
  simp [JSVal.or, h]

theorem titleChildren_Title (props : Props) :
    titleChildren (Title props) =
      some [.val (if (props.get "value").truthy
        then .str ((props.get "value").toStr ++ " — " ++ suffix) else .str suffix)] := by
  simp [titleChildren, Title, Node.childElem?, Node.children, Node.hasTag, Node.tag?]

theorem backHref_Back (props : Props) :
    backHref (Back props) = some ((props.get "to").or (.str "/")) := by
  simp [backHref, backLink, Back, Node.childElem?, Node.children, Node.hasTag, Node.tag?,
    Node.prop?, List.lookup]

theorem backClassName_Back (props : Props) :
    backClassName (Back props) = some ((props.get "closer").and (.str "closer")) := by
  simp [backClassName, Back, Node.prop?, List.lookup]

/-! ## The components -/

/-- C1: when `value` is absent (`undefined` or `null`) or the empty string, the
`title` element rendered by `Title` has one child, the string "Leo Lamprecht". -/
theorem Title_default (props : Props)
    (h : props.get "value" = .undefined ∨ props.get "value" = .null ∨
      props.get "value" = .str "") :
    titleChildren (Title props) = some [.val (.str "Leo Lamprecht")] := by
  rw [titleChildren_Title]
  rcases h with h | h | h <;> simp [h, JSVal.truthy, suffix]

theorem Title_default_witness :
    titleChildren (Title []) = some [.val (.str "Leo Lamprecht")] ∧
    titleChildren (Title [("value", .null)]) = some [.val (.str "Leo Lamprecht")] ∧
    titleChildren (Title [("value", .str "")]) = some [.val (.str "Leo Lamprecht")] :=
  ⟨Title_default [] (Or.inl rfl), Title_default _ (Or.inr (Or.inl rfl)),
    Title_default _ (Or.inr (Or.inr rfl))⟩

/-- C2: for a non-empty string `value`, the `title` element rendered by `Title`
has one child, the string `value` followed by " — " and "Leo Lamprecht". -/
theorem Title_value (props : Props) (s : String) (hs : s ≠ "")
    (h : props.get "value" = .str s) :
    titleChildren (Title props) = some [.val (.str (s ++ " — " ++ "Leo Lamprecht"))] := by
  rw [titleChildren_Title, h]
  simp [(JSVal.truthy_str s).mpr hs, JSVal.toStr, suffix]

theorem Title_value_witness :
    titleChildren (Title [("value", .str "Hello")]) =
      some [.val (.str "Hello — Leo Lamprecht")] :=
  Title_value [("value", .str "Hello")] "Hello" (by decide) rfl

/-- C3: the `href` of the link rendered by `Back` is "/" when `to` is absent
(`undefined` or `null`) or the empty string, and is `to` itself when `to` is a
non-empty string, whatever the other props (`closer` among them) are. -/
theorem Back_href (props : Props) :
    ((props.get "to" = .undefined ∨ props.get "to" = .null ∨ props.get "to" = .str "") →
      backHref (Back props) = some (.str "/")) ∧
    (∀ s : String, s ≠ "" → props.get "to" = .str s →
      backHref (Back props) = some (.str s)) := by
  rw [backHref_Back]
  refine ⟨fun h => ?_, fun s hs h => ?_⟩
  · rcases h with h | h | h <;> simp [h, JSVal.or, JSVal.truthy]
  · rw [h, JSVal.or_of_truthy _ ((JSVal.truthy_str s).mpr hs)]

theorem Back_href_witness :
    backHref (Back [("closer", .bool true)]) = some (.str "/") ∧
    backHref (Back [("to", .str ""), ("closer", .num 0)]) = some (.str "/") ∧
    backHref (Back [("to", .str "/blog"), ("closer", .bool true)]) = some (.str "/blog") ∧
    backHref (Back [("to", .str "/blog")]) = some (.str "/blog") :=
  ⟨(Back_href _).1 (Or.inl rfl), (Back_href _).1 (Or.inr (Or.inr rfl)),
    (Back_href _).2 "/blog" (by decide) rfl, (Back_href _).2 "/blog" (by decide) rfl⟩

/-- C8: for all props, the `Link` rendered by `Back` carries `prefetch` set to
`true`. -/
theorem Back_prefetch (props : Props) : backPrefetch (Back props) = some (.bool true) := by
  simp [backPrefetch, backLink, Back, Node.childElem?, Node.children, Node.hasTag, Node.tag?,
    Node.prop?, List.lookup]

theorem renderTitle_eq (σ : Scope) (props : Props) (h : σ.get "suffix" = .str suffix) :
    renderTitle σ props = (Title props, σ) := by
  simp [renderTitle, Title, h, JSVal.toStr]

theorem renderBack_eq (σ : Scope) (props : Props) : renderBack σ props = (Back props, σ) := by
  simp [renderBack, Back]

/-- C9: rendering is a pure function of its input.  Two renders of `Title`, in
any two scopes that agree on the constant `suffix` and with props that agree on
`value`, give the same tree; two renders of `Back`, in any two scopes and with
props that agree on `to` and `closer`, give the same tree; each render leaves
the scope as it found it; and in a scope where `suffix` is the module constant
the trees are those of `Title` and `Back`. -/
theorem render_pure (σ τ : Scope) (p q : Props) :
    (σ.get "suffix" = τ.get "suffix" → p.get "value" = q.get "value" →
      (renderTitle σ p).1 = (renderTitle τ q).1) ∧
    (p.get "to" = q.get "to" → p.get "closer" = q.get "closer" →
      (renderBack σ p).1 = (renderBack τ q).1) ∧
    (renderTitle σ p).2 = σ ∧ (renderBack σ p).2 = σ ∧
    (σ.get "suffix" = .str suffix → (renderTitle σ p).1 = Title p) ∧
    (renderBack σ p).1 = Back p := by
  refine ⟨fun hs hv => ?_, fun ht hc => ?_, rfl, rfl, fun h => ?_, ?_⟩
  · simp [renderTitle, hs, hv]
  · simp [renderBack, ht, hc]
  · rw [renderTitle_eq σ p h]
  · rw [renderBack_eq]

theorem render_pure_witness :
    (renderTitle [("hits", .num 1), ("suffix", .str "Leo Lamprecht")]
        [("value", .str "Hello")]).1 =
      (renderTitle [("suffix", .str "Leo Lamprecht"), ("hits", .num 2)]
        [("closer", .bool true), ("value", .str "Hello"), ("to", .str "/a")]).1 ∧
    (renderBack [("hits", .num 1), ("suffix", .str "Leo Lamprecht")]
        [("to", .str "/a"), ("closer", .bool true)]).1 =
      (renderBack [("suffix", .str "x"), ("hits", .num 2)]
        [("value", .str "Hello"), ("closer", .bool true), ("to", .str "/a")]).1 ∧
    (renderTitle [("hits", .num 1), ("suffix", .str "Leo Lamprecht")]
        [("value", .str "Hello")]).2 = [("hits", .num 1), ("suffix", .str "Leo Lamprecht")] ∧
    (renderTitle [("hits", .num 1), ("suffix", .str "Leo Lamprecht")]
        [("value", .str "Hello")]).1 = Title [("value", .str "Hello")] :=
  ⟨(render_pure [("hits", .num 1), ("suffix", .str "Leo Lamprecht")]
      [("suffix", .str "Leo Lamprecht"), ("hits", .num 2)] [("value", .str "Hello")]
      [("closer", .bool true), ("value", .str "Hello"), ("to", .str "/a")]).1 rfl rfl,
   (render_pure [("hits", .num 1), ("suffix", .str "Leo Lamprecht")]
      [("suffix", .str "x"), ("hits", .num 2)] [("to", .str "/a"), ("closer", .bool true)]
      [("value", .str "Hello"), ("closer", .bool true), ("to", .str "/a")]).2.1 rfl rfl,
   (render_pure [("hits", .num 1), ("suffix", .str "Leo Lamprecht")] []
      [("value", .str "Hello")] []).2.2.1,
   (render_pure [("hits", .num 1), ("suffix", .str "Leo Lamprecht")] []
      [("value", .str "Hello")] []).2.2.2.2.1 rfl⟩

/-- C10: the wrapper `div` of `Back` has `className` "closer" exactly when
`closer` is truthy; for a falsy `closer` the `className` is the value of
`closer` itself and not "closer"; and the `href` does not depend on `closer`. -/
theorem Back_className (props : Props) :
    (backClassName (Back props) = some (.str "closer") ↔ (props.get "closer").truthy = true) ∧
    ((props.get "closer").truthy = false →
      backClassName (Back props) = some (props.get "closer") ∧
      backClassName (Back props) ≠ some (.str "closer")) ∧
    (∀ q : Props, q.get "to" = props.get "to" → backHref (Back q) = backHref (Back props)) := by
  rw [backClassName_Back]
  have hf : (props.get "closer").truthy = false →
      (props.get "closer").and (.str "closer") ≠ .str "closer" := by
    intro h1 h2
    rw [JSVal.and_of_falsy _ h1] at h2
    rw [h2] at h1
    simp [JSVal.truthy] at h1
  refine ⟨⟨fun h => ?_, fun h => ?_⟩, fun h => ⟨?_, ?_⟩, fun q hq => ?_⟩
  · by_contra hn
    exact hf (by simpa using hn) (by simpa using h)
  · rw [JSVal.and_of_truthy _ h]
  · rw [JSVal.and_of_falsy _ h]
  · intro h2
    exact hf h (by simpa using h2)
  · rw [backHref_Back, backHref_Back, hq]

theorem Back_className_witness :
    backClassName (Back [("closer", .bool true)]) = some (.str "closer") ∧
    backClassName (Back [("closer", .str "")]) = some (.str "") ∧
    backClassName (Back [("to", .str "/a")]) = some .undefined ∧
    backHref (Back [("to", .str "/a"), ("closer", .bool true)]) =
      backHref (Back [("to", .str "/a")]) :=
  ⟨(Back_className [("closer", .bool true)]).1.2 rfl,
    ((Back_className [("closer", .str "")]).2.1 rfl).1,
    ((Back_className [("to", .str "/a")]).2.1 rfl).1,
    (Back_className [("to", .str "/a")]).2.2 _ rfl⟩

/-! ## The essay page -/

/-- C4: in the multithreading-node page the only footnote reference has id "1",
the only note of the footnote list has id "1", every reference has exactly one
note with its id, and no note identifier occurs twice. -/
theorem page_footnotes_resolved :
    refIds (blocks multithreadingNode) = [.str "1"] ∧
    noteIds (blocks multithreadingNode) = [.str "1"] ∧
    (∀ r ∈ refIds (blocks multithreadingNode),
      (noteIds (blocks multithreadingNode)).count r = 1) ∧
    (noteIds (blocks multithreadingNode)).Nodup := by
  have h1 : refIds (blocks multithreadingNode) = [.str "1"] := by rfl
  have h2 : noteIds (blocks multithreadingNode) = [.str "1"] := by rfl
  rw [h1, h2]
  simp

/-- C5: the block sequence of the multithreading-node page contains exactly one
`FootNotes` block, which is its last block, and no other `FootNotes` element
occurs anywhere in the page. -/
theorem page_single_footnotes_list :
    (footNotesBlocks (blocks multithreadingNode)).length = 1 ∧
    ((blocks multithreadingNode).getLast?.bind Node.tag?) = some "FootNotes" ∧
    ((Node.descendants multithreadingNode).filter (Node.hasTag "FootNotes")).length = 1 := by
  refine ⟨?_, ?_, ?_⟩ <;> rfl

/-- C7: the page has three `Code` blocks, each with one child, a string, which
is the template literal of the source with its newlines and indentation. -/
theorem page_code_blocks_verbatim :
    (codeBlocks (blocks multithreadingNode)).map Node.children =
      [[.val (.str "setInterval(() => \x7b\n  console.log('Interval dispatched')\n\x7d, 1000)\n\nloadDataSync()\nconsole.log('Data downloaded')")],
       [.val (.str "setInterval(() => \x7b\n  console.log('Interval dispatched')\n\x7d, 1000)\n\nawait loadData()\nconsole.log('Data downloaded')")],
       [.val (.str "const loadData = () => new Promise(resolve => \x7b\n  setTimeout(resolve, 5000)\n\x7d)")]] := by
  rfl

/-! ## The composer -/

theorem firstDuplicate_none_iff (l : List JSVal) : firstDuplicate l = none ↔ l.Nodup := by
  induction l with
  | nil => simp [firstDuplicate]
  | cons x xs ih =>
    by_cases hx : x ∈ xs <;> simp [firstDuplicate, hx, ih]

/-- C6: composing a document in which some footnote reference carries an id
that no note of its footnote list carries fails with an error, so no output is
produced. -/
theorem renderDocument_dangling (d : Document)
    (h : ∃ r ∈ refIds d.blocks, r ∉ noteIds d.blocks) :
    (∃ e, renderDocument d = .error e) ∧ ∀ out, renderDocument d ≠ .ok out := by
  suffices hs : ∃ e, renderDocument d = .error e by
    obtain ⟨e, he⟩ := hs
    exact ⟨⟨e, he⟩, fun out ho => by rw [he] at ho; cases ho⟩
  obtain ⟨r, hr, hn⟩ := h
  unfold renderDocument resolveFootNotes
  split_ifs with hm
  · exact ⟨_, rfl⟩
  · cases hd : firstDuplicate (noteIds d.blocks) with
    | some i => exact ⟨_, rfl⟩
    | none =>
      cases hf : (refIds d.blocks).find? (fun r => !(noteIds d.blocks).contains r) with
      | some r2 => exact ⟨_, rfl⟩
      | none =>
        exfalso
        rw [List.find?_eq_none] at hf
        have := hf r hr
        simp [hn] at this

theorem renderDocument_dangling_witness :
    (∃ e, renderDocument ⟨"post", .undefined, [.elem "Ref" [("id", .str "x")] []]⟩ = .error e) ∧
    ∀ out, renderDocument ⟨"post", .undefined, [.elem "Ref" [("id", .str "x")] []]⟩ ≠ .ok out :=
  renderDocument_dangling _ ⟨.str "x", by decide, by decide⟩

/-- The essay page itself passes the footnote checks, so the composer renders it. -/
theorem renderDocument_page :
    ∃ out, renderDocument ⟨"multithreading-node", .undefined, blocks multithreadingNode⟩ =
      .ok out :=
  ⟨_, rfl⟩

end PortLeo
